import Mathlib

/-!
Shallow embedding of the `rustc_wrapper` driver shim
(`src/rustc_wrapper/src/main.rs`) and the parts of the external engine
interface (`rustc_driver::run_compiler`, `rustc_driver::Callbacks`)
that the shim exercises.

The shim's own code is translated directly from the source.  The external
engine (`rustc_driver::run_compiler` and the rest of the rustc toolchain)
is not part of this repository; it is modelled abstractly, parametric over
an engine, with its interaction protocol (build a configuration context,
invoke the registered configuration hook exactly once, then compile)
modelled from the spec.
-/

namespace RustcWrapper

/-- The file-loading extension slot of the engine's run-entry-point
(third argument of `run_compiler`); opaque to the shim, which always
passes `None`. -/
inductive FileLoader : Type where
  | mk : FileLoader
deriving DecidableEq, Repr

/-- The output-redirection extension slot of the engine's run-entry-point
(fourth argument of `run_compiler`); opaque to the shim, which always
passes `None`. -/
inductive Emitter : Type where
  | mk : Emitter
deriving DecidableEq, Repr

/-- Translation of `struct Calls;` from `main.rs`: the shim's callback
object is a unit struct carrying no fields and hence no state. -/
inductive Calls : Type where
  | mk : Calls
deriving DecidableEq, Repr

/-- Translation of the shim's `impl Callbacks for Calls` method
`fn config(&mut self, config: &mut interface::Config) {}` from `main.rs`.
The body is empty, so both the receiver (`&mut self`) and the borrowed
configuration context (`&mut interface::Config`) are returned unchanged;
the empty body never inspects the context, so the translation is
parametric in the context type. -/
def Calls.config {Cfg : Type} (s : Calls) (c : Cfg) : Calls × Cfg :=
  (s, c)

/-- Result value of the engine's run-entry-point: `interface::Result<()>`,
i.e. `Result<(), ErrorReported>`. -/
inductive CompileResult : Type where
  | ok : CompileResult
  | err : CompileResult
deriving DecidableEq, Repr

/-- Modelled from the spec: the numeric process status corresponding to an
engine result, following the engine's own convention (`0` on success, a
nonzero status on reported failure, as in `rustc_driver`'s own entry
point, which exits with `1` when `run_compiler` returns an error). -/
def statusOf : CompileResult → Nat
  | CompileResult.ok => 0
  | CompileResult.err => 1

/-- Modelled from the spec: the external compilation engine, abstracted
over its configuration-context type `Cfg`.  `initialConfig` builds the
configuration context from the argument vector before the hook runs;
`compile` performs the (out-of-scope) compilation on the possibly
hook-adjusted context, producing a result and the diagnostics it prints. -/
structure Engine (Cfg : Type) where
  initialConfig : List String → Cfg
  compile : List String → Cfg → CompileResult × List String

/-- Observable events of one engine run, used to state when and how often
the engine drives the registered configuration hook. -/
inductive Event (Cfg : Type) : Type where
  | configureCall : Cfg → Cfg → Event Cfg
  | compileStart : Event Cfg

/-- Predicate picking out invocations of the configuration hook in a
trace. -/
def Event.isConfigureCall {Cfg : Type} : Event Cfg → Bool
  | Event.configureCall _ _ => true
  | Event.compileStart => false

/-- Predicate picking out the start of compilation proper in a trace. -/
def Event.isCompileStart {Cfg : Type} : Event Cfg → Bool
  | Event.compileStart => true
  | Event.configureCall _ _ => false

/-- Number of configuration-hook invocations recorded in a trace. -/
def configureCount {Cfg : Type} (tr : List (Event Cfg)) : Nat :=
  (tr.filter Event.isConfigureCall).length

/-- Everything observable from one invocation of the engine's
run-entry-point: the engine's result value, the diagnostics the engine
printed, and the trace of hook/compilation events. -/
structure RunOutcome (Cfg : Type) where
  result : CompileResult
  diagnostics : List String
  trace : List (Event Cfg)

/-- Modelled from the spec: `rustc_driver::run_compiler`, the external
engine's run-entry-point.  It receives the argument vector, a callback
object together with its `config` operation, and the two optional
extension slots; it builds the configuration context, invokes the
registered configuration hook exactly once before compilation proceeds,
then compiles with the resulting context and returns its own result and
diagnostics. -/
def run_compiler {Cfg S : Type} (eng : Engine Cfg) (args : List String)
    (cb : S) (configHook : S → Cfg → S × Cfg)
    (fileLoader : Option FileLoader) (emitter : Option Emitter) :
    RunOutcome Cfg :=
  let cfg0 := eng.initialConfig args
  let sc := configHook cb cfg0
  let rd := eng.compile args sc.2
  { result := rd.1
    diagnostics := rd.2
    trace := [Event.configureCall cfg0 sc.2, Event.compileStart] }

/-- Record of the argument values `main` supplies at its single call of
the engine's run-entry-point. -/
structure RunCompilerCall where
  args : List String
  callbacks : Calls
  fileLoader : Option FileLoader
  emitter : Option Emitter
deriving DecidableEq

/-- Translation of the body of `fn main()` up to the call of
`run_compiler`: `let args: Vec<_> = std::env::args().collect();` collects
the operating-system-supplied argument vector (invocation name at index
zero included) unchanged, and `run_compiler(&args, &mut Calls, None,
None)` passes that vector, the unit callback object, and `None` for both
extension slots. -/
def mainCall (osArgs : List String) : RunCompilerCall :=
  let args : List String := osArgs
  { args := args
    callbacks := Calls.mk
    fileLoader := none
    emitter := none }

/-- One full run of the shim against an abstract engine: `main` makes its
single call into the engine's run-entry-point with the values recorded by
`mainCall`. -/
def shimRun {Cfg : Type} (eng : Engine Cfg) (osArgs : List String) :
    RunOutcome Cfg :=
  let call := mainCall osArgs
  run_compiler eng call.args call.callbacks Calls.config
    call.fileLoader call.emitter

/-- Translation of the control flow of `fn main()` after the engine call:
the result value of `run_compiler(&args, &mut Calls, None, None);` is
discarded (the expression statement drops the `Result`), and `main`
returns `()`, so whenever the engine returns normally the process
terminates with status `0`. -/
def shimExitStatus {Cfg : Type} (eng : Engine Cfg)
    (osArgs : List String) : Nat :=
  let _ := shimRun eng osArgs
  0

/-- Numeric status of invoking the external engine directly with the same
argument vector, per the engine's own convention (`statusOf`). -/
def engineExitStatus {Cfg : Type} (eng : Engine Cfg)
    (args : List String) : Nat :=
  statusOf (run_compiler eng args Calls.mk Calls.config none none).result

/-- Concrete engine over a trivial context type: compilation fails (the
input file does not exist), the engine prints its own diagnostic and
returns an error result. -/
def failingEngine : Engine Unit :=
  { initialConfig := fun _ => ()
    compile := fun _ _ =>
      (CompileResult.err, ["error: could not read nofile.rs"]) }

/-- Concrete engine over a trivial context type whose compilation
succeeds, for instantiating universally quantified statements. -/
def okEngine : Engine Unit :=
  { initialConfig := fun _ => ()
    compile := fun _ _ => (CompileResult.ok, []) }

/-- Iterated application of the shim's configuration hook, used to state
that any sequence of `config` calls is observationally equal to none. -/
def configIter {Cfg : Type} : Nat → Calls → Cfg → Calls × Cfg
  | 0, s, c => (s, c)
  | Nat.succ n, s, c =>
      let sc := Calls.config s c
      configIter n sc.1 sc.2

/-- C1: the claim states that the shim's process exit status always equals
the numeric status of the engine's run-entry-point.  The code contradicts
this: `main` discards the `Result` returned by `run_compiler` (a value the
engine's interface marks must-use) and returns unit, so when the engine
reports failure with nonzero status `1` the shim's process still
terminates with status `0`.  Evaluated here at a concrete failing
argument vector. -/
theorem c1_exit_status_bug :
    engineExitStatus failingEngine ["rustc_wrapper", "nofile.rs"] = 1 ∧
      shimExitStatus failingEngine ["rustc_wrapper", "nofile.rs"] = 0 :=
  ⟨rfl, rfl⟩

/-- C2: the shim's configuration hook `Calls.config` is a no-op for every
configuration context: the context it hands back is the one it was given,
and the callback object's own state is unmodified. -/
theorem c2_config_noop {Cfg : Type} (s : Calls) (c : Cfg) :
    (Calls.config s c).2 = c ∧ (Calls.config s c).1 = s :=
  ⟨rfl, rfl⟩

/-- C3: `main` forwards the operating-system-supplied argument vector to
the engine's run-entry-point exactly: the forwarded list is the supplied
list itself, hence same strings, same order, same length, with the
invocation name preserved at index zero. -/
theorem c3_args_forwarded_verbatim (osArgs : List String) :
    (mainCall osArgs).args = osArgs ∧
      (mainCall osArgs).args.length = osArgs.length ∧
      (mainCall osArgs).args.head? = osArgs.head? :=
  ⟨rfl, rfl, rfl⟩

/-- C4: in every run of the shim, the trace records exactly one
invocation of the configuration hook, and that single invocation already
occurs before compilation starts (the part of the trace preceding the
first `compileStart` event also contains exactly one hook invocation). -/
theorem c4_configure_called_exactly_once {Cfg : Type}
    (eng : Engine Cfg) (osArgs : List String) :
    configureCount (shimRun eng osArgs).trace = 1 ∧
      configureCount
        ((shimRun eng osArgs).trace.takeWhile
          (fun e => ! e.isCompileStart)) = 1 :=
  ⟨rfl, rfl⟩

/-- C5: the shim neither catches, wraps, translates, retries, nor
reinterprets engine failures: for every engine and argument vector, the
result value and the diagnostics observed through the shim are exactly
those of invoking the engine's run-entry-point directly with the same
vector — no message added, none suppressed. -/
theorem c5_failure_passthrough {Cfg : Type} (eng : Engine Cfg)
    (osArgs : List String) :
    (shimRun eng osArgs).diagnostics =
        (run_compiler eng osArgs Calls.mk Calls.config
          none none).diagnostics ∧
      (shimRun eng osArgs).result =
        (run_compiler eng osArgs Calls.mk Calls.config
          none none).result :=
  ⟨rfl, rfl⟩

/-- C6: the shim retains nothing from the configuration context past the
single hook invocation: the callback object `Calls` has no fields, so the
state it carries out of `config` is the unique unit value, independent of
the context passed in — for any two contexts the retained state is
identical, and every `Calls` value equals `Calls.mk`. -/
theorem c6_no_retained_reference {Cfg Cfg' : Type} (s : Calls)
    (c : Cfg) (c' : Cfg') :
    (Calls.config s c).1 = Calls.mk ∧
      (Calls.config s c).1 = (Calls.config s c').1 ∧
      ∀ t : Calls, t = Calls.mk :=
  ⟨by cases s; rfl, by cases s; rfl, fun t => by cases t; rfl⟩

/-- C7: `main` supplies both optional extension slots of the engine's
run-entry-point — the file-loading slot and the output-redirection slot —
as `none`, for every argument vector. -/
theorem c7_extension_slots_absent (osArgs : List String) :
    (mainCall osArgs).fileLoader = none ∧
      (mainCall osArgs).emitter = none :=
  ⟨rfl, rfl⟩

/-- C8: `main` discards the result value of the engine's run-entry-point
and returns unit: whenever the engine returns normally, the shim's exit
status is `0`, for every engine — in particular regardless of whether the
engine's result was success or error. -/
theorem c8_result_discarded_exit_zero {Cfg : Type} (eng : Engine Cfg)
    (osArgs : List String) :
    shimExitStatus eng osArgs = 0 :=
  rfl

/-- C9: the callback object is a stateless unit value and its `config`
operation is idempotent: any number of `config` calls, iterated, leaves
both the callback state and the configuration context equal to the
originals, so every sequence of calls is observationally equal to zero
calls. -/
theorem c9_config_idempotent_stateless {Cfg : Type} (n : Nat)
    (s : Calls) (c : Cfg) :
    configIter n s c = (s, c) := by
  induction n with
  | zero => rfl
  | succ m ih => simpa [configIter, Calls.config] using ih

/-- C10: the shim's behaviour is a deterministic function of the process
argument vector alone: two runs with equal argument vectors make
identical calls into the engine (same arguments, same callback object,
same absent extension slots) and produce identical outcomes against any
one engine. -/
theorem c10_deterministic_in_args {Cfg : Type} (eng : Engine Cfg)
    (a b : List String) (h : a = b) :
    mainCall a = mainCall b ∧ shimRun eng a = shimRun eng b := by
  subst h; exact ⟨rfl, rfl⟩

/-- C10 witness: the determinism theorem applied at a concrete argument
vector. -/
theorem c10_deterministic_in_args_witness :
    mainCall ["rustc_wrapper", "a.rs"] = mainCall ["rustc_wrapper", "a.rs"] ∧
      shimRun okEngine ["rustc_wrapper", "a.rs"] =
        shimRun okEngine ["rustc_wrapper", "a.rs"] :=
  c10_deterministic_in_args okEngine
    ["rustc_wrapper", "a.rs"] ["rustc_wrapper", "a.rs"] rfl

end RustcWrapper
